import Mathlib

/-!
Verification development for the `sical-ws` invoice / conformity PDF service.

The definitions below are a shallow embedding of the core Python modules
(`core/xsig_pdf.py`, `core/service.py`, `core/areas.py`, `api/main.py`):

* byte sequences are `List Nat` (one entry per byte);
* Python `str` is Lean `String`; Python `dict[str, str]` is an association
  list `List (String × String)` built in insertion order, with
  assignment-with-overwrite semantics (`dictSet`);
* `xml.etree.ElementTree` elements are the inductive `Xml` (tag, optional
  text, children); namespaced lookups such as `ds:X509Certificate` keep the
  prefixed name as the tag (namespace resolution is a bijective renaming
  that the source applies uniformly, so it is abstracted away);
* calls into external libraries (`cryptography` certificate decoding,
  `dateutil` tolerant date parsing, `datetime.now`) are parameters collected
  in `PyEnv`; instants are UTC timestamps modelled as `Int`;
* Python exceptions raised by those externals are `Except String` values,
  carrying the `str(e)` detail used by the source's `except` handlers.
-/

namespace SicalWS

/-! ## Python string primitives -/

/-- The whitespace characters removed by Python `str.strip()` (ASCII range;
the source only ever strips ASCII data). -/
def isPySpace (c : Char) : Bool :=
  c == ' ' || c == '\t' || c == '\n' || c == '\r' || c == '\x0b' || c == '\x0c'

/-- Python `str.strip()`: remove leading and trailing whitespace. -/
def pyStrip (s : String) : String :=
  String.mk (((s.toList.dropWhile isPySpace).reverse.dropWhile isPySpace).reverse)

/-- Python `s.rstrip(c)` for a single strip character `c`: remove every
trailing occurrence of `c`. -/
def pyRStripChar (s : String) (c : Char) : String :=
  String.mk ((s.toList.reverse.dropWhile (fun d => d == c)).reverse)

/-- Python `str.isdigit()` (restricted to ASCII digits, the only digits the
source's area codes use): non-empty and all characters are digits. -/
def pyIsDigit (s : String) : Bool :=
  !s.isEmpty && s.toList.all Char.isDigit

/-- Python `str.zfill(width)`: left-pad with `'0'` up to `width`, keeping a
leading sign in front of the padding. -/
def pyZfill (s : String) (width : Nat) : String :=
  if s.length ≥ width then s
  else
    match s.toList with
    | c :: rest =>
        if c == '+' || c == '-' then
          String.mk (c :: (List.replicate (width - s.length) '0' ++ rest))
        else
          String.mk (List.replicate (width - s.length) '0' ++ s.toList)
    | [] => String.mk (List.replicate width '0')

/-- Python `x or dflt` for strings: the empty string is falsy. -/
def orElse (s dflt : String) : String :=
  if s = "" then dflt else s

/-! ## Python `dict[str, str]` as an insertion-ordered association list -/

/-- Insertion-ordered Python `dict[str, str]`. -/
abbrev Dict := List (String × String)

/-- First value bound to `k`, if any (the source's dicts are key-unique). -/
def dictGet? : Dict → String → Option String
  | [], _ => none
  | (k', v) :: rest, k => if k' = k then some v else dictGet? rest k

/-- Python `d.get(k, dflt)`. -/
def lookupD (d : Dict) (k dflt : String) : String :=
  (dictGet? d k).getD dflt

/-- Python `k in d`. -/
def hasKey (d : Dict) (k : String) : Bool :=
  (dictGet? d k).isSome

/-- Python `d[k] = v` on a key-unique dict: overwrite in place if the key
exists, otherwise append at the end. -/
def dictSet : Dict → String → String → Dict
  | [], k, v => [(k, v)]
  | (k', v') :: rest, k, v =>
      if k' = k then (k, v) :: rest else (k', v') :: dictSet rest k v

/-! ## Container Unwrapper (`core/xsig_pdf.py`, `_extract_xml_from_xsig_bytes`) -/

/-- The byte string `b"<?xml"`. -/
def xmlStartMarker : List Nat := [60, 63, 120, 109, 108]

/-- `pat` is a prefix of `bs` (byte-string comparison). -/
def listStartsWith : List Nat → List Nat → Bool
  | [], _ => true
  | _ :: _, [] => false
  | p :: ps, b :: bs => p == b && listStartsWith ps bs

/-- Index of the first occurrence of the byte string `pat` in `bs`
(Python `bytes.find`, successful case). -/
def listFind (pat : List Nat) : List Nat → Option Nat
  | [] => if listStartsWith pat [] then some 0 else none
  | b :: bs =>
      if listStartsWith pat (b :: bs) then some 0
      else (listFind pat bs).map (· + 1)

/-- Index of the last occurrence of the byte `v` in `bs`
(Python `bytes.rfind` for a one-byte pattern, successful case). -/
def listRFind (v : Nat) : List Nat → Option Nat
  | [] => none
  | b :: bs =>
      match listRFind v bs with
      | some j => some (j + 1)
      | none => if b == v then some 0 else none

/-- Python `bytes.find`: first index, `-1` when absent. -/
def pyFind (pat : List Nat) (bs : List Nat) : Int :=
  match listFind pat bs with
  | some i => (i : Int)
  | none => -1

/-- Python `bytes.rfind` (one-byte pattern): last index, `-1` when absent. -/
def pyRFind (v : Nat) (bs : List Nat) : Int :=
  match listRFind v bs with
  | some j => (j : Int)
  | none => -1

/-- `core/xsig_pdf.py`, `_extract_xml_from_xsig_bytes` (lines 27-34): slice
from the first `b"<?xml"` to one past the last `b">"` when both are found and
the end exceeds the start; otherwise return the input unchanged. -/
def extract_xml_from_xsig_bytes (xsig_bytes : List Nat) : List Nat :=
  let xml_start := pyFind xmlStartMarker xsig_bytes
  let xml_end := pyRFind 62 xsig_bytes + 1
  if xml_start ≠ -1 ∧ xml_end > xml_start then
    (xsig_bytes.take xml_end.toNat).drop xml_start.toNat
  else
    xsig_bytes

/-! ## Date primitives (`datetime.strptime` / `strftime` as used by the source) -/

/-- Numeric value of a list of ASCII digit characters. -/
def digitsToNat (cs : List Char) : Nat :=
  cs.foldl (fun acc c => acc * 10 + (c.toNat - 48)) 0

/-- Gregorian leap-year rule (as in `datetime`). -/
def isLeapYear (y : Nat) : Bool :=
  (y % 4 == 0 && y % 100 != 0) || y % 400 == 0

/-- Days in a month (as validated by `datetime`). -/
def daysInMonth (y m : Nat) : Nat :=
  if m = 2 then (if isLeapYear y then 29 else 28)
  else if m = 4 ∨ m = 6 ∨ m = 9 ∨ m = 11 then 30
  else 31

/-- Parse one or two leading ASCII digits (as the `%m` / `%d` patterns of
CPython `strptime` do), returning the value and the rest. -/
def parse12 : List Char → Option (Nat × List Char)
  | a :: b :: rest =>
      if a.isDigit then
        if b.isDigit then some (digitsToNat [a, b], rest)
        else some (digitsToNat [a], b :: rest)
      else none
  | [a] => if a.isDigit then some (digitsToNat [a], []) else none
  | [] => none

/-- `datetime.strptime(s, "%Y-%m-%d")`: four digit year, one or two digit
month and day, full match, with `datetime`'s range validation (year ≥ 1,
month 1-12, day within the month). `none` models the `ValueError` caught by
the source's `except` blocks. -/
def pyStrptimeYMD (s : String) : Option (Nat × Nat × Nat) :=
  match s.toList with
  | y1 :: y2 :: y3 :: y4 :: '-' :: rest =>
      if y1.isDigit && y2.isDigit && y3.isDigit && y4.isDigit then
        let y := digitsToNat [y1, y2, y3, y4]
        match parse12 rest with
        | some (m, '-' :: rest2) =>
            match parse12 rest2 with
            | some (d, []) =>
                if 1 ≤ y ∧ 1 ≤ m ∧ m ≤ 12 ∧ 1 ≤ d ∧ d ≤ daysInMonth y m then
                  some (y, m, d)
                else none
            | _ => none
        | _ => none
      else none
  | _ => none

/-- Two-digit zero-padded decimal rendering. -/
def fmt2dig (n : Nat) : String :=
  if n < 10 then "0" ++ toString n else toString n

/-- `.strftime("%d/%m/%Y")` on a parsed `(y, m, d)` date. -/
def strftimeDMY (y m d : Nat) : String :=
  fmt2dig d ++ "/" ++ fmt2dig m ++ "/" ++ toString y

/-! ## `xml.etree.ElementTree` elements and the lookups the source uses -/

/-- A parsed XML element: tag, optional text content, children in document
order. -/
inductive Xml where
  | node (tag : String) (text : Option String) (children : List Xml)
deriving Repr

/-- Tag of an element. -/
def Xml.tag : Xml → String
  | .node t _ _ => t

/-- Text of an element (`Element.text`). -/
def Xml.text : Xml → Option String
  | .node _ x _ => x

/-- Children of an element. -/
def Xml.children : Xml → List Xml
  | .node _ _ cs => cs

mutual

/-- All proper descendants of an element in document order (the elements the
ElementTree path prefix `.//` ranges over). -/
def descendants : Xml → List Xml
  | .node _ _ cs => descendantsL cs

/-- Descendants-including-self of each element of a list, in document
order. -/
def descendantsL : List Xml → List Xml
  | [] => []
  | c :: cs => c :: (descendants c ++ descendantsL cs)

end

/-- Children of `x` bearing tag `t` (`x.findall("T")`). -/
def childrenNamed (t : String) (x : Xml) : List Xml :=
  x.children.filter (fun c => c.tag == t)

/-- First child of `x` bearing tag `t` (`x.find("T")`). -/
def findChild (x : Xml) (t : String) : Option Xml :=
  (childrenNamed t x).head?

/-- All proper descendants of `x` bearing tag `t` (`x.findall(".//T")`). -/
def findAllDesc (x : Xml) (t : String) : List Xml :=
  (descendants x).filter (fun c => c.tag == t)

/-- First proper descendant of `x` bearing tag `t` (`x.find(".//T")`). -/
def findDesc (x : Xml) (t : String) : Option Xml :=
  (findAllDesc x t).head?

/-- `x.findall(".//A/B")`: the `B`-children of every descendant tagged `A`,
in document order. -/
def findAllDesc2 (x : Xml) (a b : String) : List Xml :=
  (findAllDesc x a).flatMap (childrenNamed b)

/-- `x.find(".//A/B")`. -/
def findDesc2 (x : Xml) (a b : String) : Option Xml :=
  (findAllDesc2 x a b).head?

/-- `Element.text` of a found element as ElementTree `findtext` reports it:
an element with no text content yields `""`. -/
def textOrEmpty (x : Xml) : String :=
  x.text.getD ""

/-- `x.findtext("T", default=dflt)`. -/
def findtextChild (x : Xml) (t dflt : String) : String :=
  match findChild x t with
  | some e => textOrEmpty e
  | none => dflt

/-- `x.findtext(".//T", default=dflt)`. -/
def findtextDesc (x : Xml) (t dflt : String) : String :=
  match findDesc x t with
  | some e => textOrEmpty e
  | none => dflt

/-- `x.findtext(".//A/B", default=dflt)`. -/
def findtextDesc2 (x : Xml) (a b dflt : String) : String :=
  match findDesc2 x a b with
  | some e => textOrEmpty e
  | none => dflt

/-! ## Party and address extraction (`core/xsig_pdf.py`, lines 145-215) -/

/-- `_address_components` (lines 145-176): address component dict for a
`LegalEntity`/`Individual` element, branching on `AddressInSpain` versus
`OverseasAddress`; all four keys are initialised to `"N/A"`. -/
def address_components (entity_root : Option Xml) : Dict :=
  let result : Dict :=
    [("Dirección", "N/A"), ("Poblacion", "N/A"), ("Cod.Postal", "N/A"), ("Provincia", "N/A")]
  match entity_root with
  | none => result
  | some er =>
    match findChild er "AddressInSpain" with
    | some addr_es =>
        let address := orElse (findtextChild addr_es "Address" "") ""
        let postcode := orElse (findtextChild addr_es "PostCode" "") ""
        let town := orElse (findtextChild addr_es "Town" "") ""
        let province := orElse (findtextChild addr_es "Province" "") ""
        let country := orElse (findtextChild addr_es "CountryCode" "") ""
        let address_fmt := String.intercalate ", "
          (([address, pyStrip (postcode ++ " " ++ town), province, country]).filter
            (fun p => !(p == "")))
        let result := dictSet result "Dirección" (orElse address_fmt "N/A")
        let result := dictSet result "Poblacion" (orElse town "N/A")
        let result := dictSet result "Cod.Postal" (orElse postcode "N/A")
        let result := dictSet result "Provincia" (orElse province "N/A")
        result
    | none =>
      match findChild er "OverseasAddress" with
      | some addr_ov =>
          let line := orElse (findtextChild addr_ov "Address" "") ""
          let post := orElse (findtextChild addr_ov "PostCodeAndTown" "") ""
          let prov := orElse (findtextChild addr_ov "Province" "") ""
          let country := orElse (findtextChild addr_ov "CountryCode" "") ""
          let address_fmt := orElse
            (String.intercalate ", "
              (([line, post, prov, country]).filter (fun p => !(p == "")))) "N/A"
          dictSet result "Dirección" address_fmt
      | none => result

/-- The name / address-components selection of `_extract_party_full`
(lines 186-201): `LegalEntity` is tried first, then `Individual`, else both
name and address default to sentinels. -/
def party_name_addr (party : Xml) : String × Dict :=
  match findDesc party "LegalEntity", findDesc party "Individual" with
  | some legal, _ =>
      (orElse (pyStrip (orElse (findtextChild legal "CorporateName" "") "")) "N/A",
       address_components (some legal))
  | none, some individual =>
      (orElse (pyStrip
        (pyStrip (orElse (findtextChild individual "Name" "") "") ++ " " ++
         pyStrip (orElse (findtextChild individual "FirstSurname" "") "") ++ " " ++
         pyStrip (orElse (findtextChild individual "SecondSurname" "") ""))) "N/A",
       address_components (some individual))
  | none, none =>
      ("N/A",
       [("Dirección", "N/A"), ("Poblacion", "N/A"),
        ("Cod.Postal", "N/A"), ("Provincia", "N/A")])

/-- The `out` dict assembly of `_extract_party_full` (lines 203-215):
name, tax id, address line, then the optional component keys copied over
when present in the address dict. -/
def party_out (name tax_id : String) (addr_parts : Dict) : Dict :=
  let out : Dict :=
    [("Nombre", name), ("NIF", tax_id), ("Dirección", lookupD addr_parts "Dirección" "N/A")]
  let out := if hasKey addr_parts "Poblacion" then
      dictSet out "Poblacion" (lookupD addr_parts "Poblacion" "") else out
  let out := if hasKey addr_parts "Cod.Postal" then
      dictSet out "Cod.Postal" (lookupD addr_parts "Cod.Postal" "") else out
  let out := if hasKey addr_parts "Provincia" then
      dictSet out "Provincia" (lookupD addr_parts "Provincia" "") else out
  out

/-- `_extract_party_full` (lines 179-215): name, tax id and address
components of `SellerParty`/`BuyerParty`/`ThirdParty`; the empty dict when
the party element is absent. -/
def extract_party_full (parent : Xml) (party_tag : String) : Dict :=
  match findDesc parent party_tag with
  | none => []
  | some party =>
    let tax_id := orElse
      (findtextDesc2 party "TaxIdentification" "TaxIdentificationNumber" "N/A") "N/A"
    let na := party_name_addr party
    party_out na.1 tax_id na.2

/-! ## Signature / certificate validator (`core/xsig_pdf.py`, lines 38-142) -/

/-- The attributes and validity window the source reads off a decoded X.509
certificate. The `Option` fields model the inner `try/except` attribute
lookups (`None` = the lookup raised and the sentinel default applies);
the validity instants are aware UTC timestamps. -/
structure Cert where
  commonName : Option String
  serialNumberAttr : Option String
  issuerCN : Option String
  hashAlgUpper : Option String
  validoDesde : Int
  validoHasta : Int
deriving Repr

/-- Ambient behaviour of the external libraries the validator calls:
`decodeCert` models `base64.b64decode` + `x509.load_der_x509_certificate`
(`Except.error` = the raised exception's `str(e)`), `parseDate` models
`dateutil.parser.parse` followed by normalisation to UTC, `formatYMD`
models `strftime("%Y-%m-%d")` on an aware datetime, and `now` is
`datetime.now(timezone.utc)` at the moment of the call. -/
structure PyEnv where
  decodeCert : String → Except String Cert
  parseDate : String → Except String Int
  formatYMD : Int → String
  now : Int

/-- Current certificate status (lines 104-111): compare `now` against the
validity window, not-yet-valid tested first. -/
def certCurrentStatus (validoDesde validoHasta now : Int) : String :=
  if now < validoDesde then "Certificado aún no válido (vigencia futura)"
  else if now > validoHasta then "Certificado caducado"
  else "Certificado actualmente válido"

/-- `_extract_signature_info_from_xml` (lines 38-142): the signature block
summary dict. The outcome is `{"estado": "No se encontró certificado"}` when
no certificate text is present, an `Error al extraer firma` dict when the
certificate bytes cannot be decoded, and the full ten-field dict otherwise;
a signing time that `parseDate` rejects yields the
`No se pudo validar la fecha de firma` detail while the current status is
still computed from the window. -/
def extract_signature_info_from_xml (env : PyEnv) (xml_root : Xml) : Dict :=
  let cert_base64 := findtextDesc xml_root "ds:X509Certificate" ""
  if cert_base64 = "" then [("estado", "No se encontró certificado")]
  else
    match env.decodeCert cert_base64 with
    | Except.error e => [("estado", "Error al extraer firma: " ++ e)]
    | Except.ok cert =>
      let cn := cert.commonName.getD "N/A"
      let nif := cert.serialNumberAttr.getD "N/A"
      let cert_issuer := cert.issuerCN.getD "No disponible"
      let algorithm := cert.hashAlgUpper.getD "N/A"
      let signing_time_str := findtextDesc xml_root "xades:SigningTime" "No especificada"
      let estado_actual := certCurrentStatus cert.validoDesde cert.validoHasta env.now
      let validez_en_firma :=
        match env.parseDate signing_time_str with
        | Except.ok signing_datetime =>
            if cert.validoDesde ≤ signing_datetime ∧ signing_datetime ≤ cert.validoHasta then
              "Certificado válido en la fecha de la firma"
            else
              "Certificado NO era válido en la fecha de la firma"
        | Except.error e => "No se pudo validar la fecha de firma: " ++ e
      [("estado", "Firma encontrada"),
       ("firmante", cn),
       ("nif", nif),
       ("algoritmo", algorithm),
       ("fecha_firma", signing_time_str),
       ("valido_desde", env.formatYMD cert.validoDesde),
       ("valido_hasta", env.formatYMD cert.validoHasta),
       ("estado_certificado", estado_actual),
       ("validez_en_firma", validez_en_firma),
       ("autoridad_certificadora", cert_issuer)]

/-! ## Invoice Schema Extractor (`core/xsig_pdf.py`, `_extract_invoice_data_from_xml`,
lines 218-433). The record is the Python result dict; each block below is the
correspondingly named paragraph of the source function. -/

/-- One entry of `TaxesWithheldDetails` (lines 304-317). -/
structure WithheldTax where
  code : String
  rate : String
  amount : String
  taxable_base : String
deriving DecidableEq, Repr

/-- One entry of `TaxesOutputDetails` (lines 319-332). -/
structure OutputTax where
  type_code : String
  rate : String
  base : String
  amount : String
  surcharge : String
  surcharge_amount : String
deriving DecidableEq, Repr

/-- One line-level charge or discount (lines 390-403). -/
structure AmountWithReason where
  reason : String
  amount : String
deriving DecidableEq, Repr

/-- One entry of `Conceptos` (lines 367-415). -/
structure InvoiceLine where
  descripcion : String
  cantidad : String
  precioUnitario : String
  importe : String
  observaciones : String
  periodo : String
  cargos : List AmountWithReason
  descuentos : List AmountWithReason
deriving DecidableEq, Repr

/-- The result dict of `_extract_invoice_data_from_xml` (lines 417-436),
field names following its keys. -/
structure InvoiceData where
  numeroFactura : String
  fecha : String
  tipoDocumento : String
  moneda : String
  claseFactura : String
  periodoFactura : Dict
  totalFactura : String
  totales : Dict
  emisor : Dict
  receptor : Dict
  tercero : Dict
  conceptos : List InvoiceLine
  firma : Dict
  infoAdicional : String
  referenciasLegales : List String
  taxesWithheldDetails : List WithheldTax
  taxesOutputDetails : List OutputTax
  paymentDetails : Dict
deriving DecidableEq, Repr

/-- The fixed six-entry invoice-class table (lines 251-254). -/
def invoice_class_map : Dict :=
  [("OO", "Original"), ("OR", "Original Rectificativa"), ("OC", "Original Recapitulativa"),
   ("CO", "Duplicado Original"), ("CR", "Duplicado Rectificativa"),
   ("CC", "Duplicado Recapitulativa")]

/-- `invoice_class_map.get(invoice_class, "N/A")` (line 255): unknown class
codes yield the `"N/A"` sentinel, not the raw code. -/
def invoiceClassDesc (invoice_class : String) : String :=
  lookupD invoice_class_map invoice_class "N/A"

/-- The fixed 19-entry payment-means table (lines 347-356). -/
def payment_means_map : Dict :=
  [("01", "Al contado"), ("02", "Recibo domiciliado"), ("03", "Recibo"),
   ("04", "Transferencia"), ("05", "Letra aceptada"), ("06", "Crédito documentario"),
   ("07", "Contrato adjudicación"), ("08", "Letra de cambio"), ("09", "Pagaré a la orden"),
   ("10", "Pagaré no a la orden"), ("11", "Cheque"), ("12", "Reposición"),
   ("13", "Especiales"), ("14", "Compensación"), ("15", "Giro postal"),
   ("16", "Cheque conformado"), ("17", "Cheque bancario"), ("18", "Pago contra reembolso"),
   ("19", "Pago mediante tarjeta")]

/-- `emitter` (lines 220-222): seller party with the six-key `"N/A"`
fallback when the extraction comes back empty. -/
def emisor_of (root : Xml) : Dict :=
  let e := extract_party_full root "SellerParty"
  if e = [] then
    [("Nombre", "N/A"), ("NIF", "N/A"), ("Dirección", "N/A"),
     ("Poblacion", "N/A"), ("Cod.Postal", "N/A"), ("Provincia", "N/A")]
  else e

/-- `destinos` (lines 228-234): administrative centres under the buyer
party, rendered `"code - name"`. -/
def destinos_of (root : Xml) : List String :=
  match findDesc root "BuyerParty" with
  | none => []
  | some buyer_party =>
      (findAllDesc2 buyer_party "AdministrativeCentres" "AdministrativeCentre").map
        (fun admin =>
          findtextChild admin "CentreCode" "N/A" ++ " - " ++ findtextChild admin "Name" "N/A")

/-- `receptor` (lines 223-238): buyer party with a three-key fallback, then
the first three administrative centres as `OfiCont`/`OrgGest`/`Und.Tram`
(and `UndTram` mirroring `Und.Tram`). -/
def receptor_of (root : Xml) : Dict :=
  let r := extract_party_full root "BuyerParty"
  let receptor := if r = [] then [("Nombre", "N/A"), ("NIF", "N/A"), ("Dirección", "N/A")] else r
  let destinos := destinos_of root
  let receptor := dictSet receptor "OfiCont" (destinos.getD 0 "N/A")
  let receptor := dictSet receptor "OrgGest" (destinos.getD 1 "N/A")
  let receptor := dictSet receptor "Und.Tram" (destinos.getD 2 "N/A")
  let receptor := dictSet receptor "UndTram" (lookupD receptor "Und.Tram" "N/A")
  receptor

/-- `tercero` (line 240): third party, possibly the empty dict. -/
def tercero_of (root : Xml) : Dict :=
  extract_party_full root "ThirdParty"

/-- The header values computed in lines 242-284. -/
structure HeaderData where
  numeroFactura : String
  fecha : String
  tipoDocumento : String
  moneda : String
  claseFactura : String
  periodoFactura : Dict
deriving DecidableEq, Repr

/-- `_fmt_date` (lines 270-274): reformat `YYYY-MM-DD` as `DD/MM/YYYY`,
falling back to the raw value, with `"N/A"` for the empty string. -/
def fmt_date_or_na (d : String) : String :=
  match pyStrptimeYMD d with
  | some (y, m, dd) => strftimeDMY y m dd
  | none => orElse d "N/A"

/-- Header block (lines 242-284): number (series ++ sequence), issue date
reformatted, type, currency, class description and invoicing period. -/
def header_of (invoice_element : Option Xml) : HeaderData :=
  match invoice_element with
  | none =>
      { numeroFactura := "N/A", fecha := "N/A", tipoDocumento := "N/A",
        moneda := "N/A", claseFactura := "N/A", periodoFactura := [] }
  | some inv =>
      let invoice_number := findtextDesc2 inv "InvoiceHeader" "InvoiceNumber" "N/A"
      let invoice_series := orElse (findtextDesc2 inv "InvoiceHeader" "InvoiceSeriesCode" "") ""
      let invoice_type := findtextDesc2 inv "InvoiceHeader" "InvoiceDocumentType" "N/A"
      let invoice_currency := findtextDesc2 inv "InvoiceIssueData" "InvoiceCurrencyCode" "N/A"
      let raw_date := findtextDesc2 inv "InvoiceIssueData" "IssueDate" "N/A"
      let invoice_class := findtextDesc2 inv "InvoiceHeader" "InvoiceClass" "N/A"
      let issue_date :=
        match pyStrptimeYMD raw_date with
        | some (y, m, d) => strftimeDMY y m d
        | none => raw_date
      let invoicing_period :=
        match findChild inv "InvoiceIssueData" with
        | none => []
        | some issue_data =>
          match findChild issue_data "InvoicingPeriod" with
          | none => []
          | some invp =>
              let start := orElse (findtextChild invp "StartDate" "") ""
              let stop := orElse (findtextChild invp "EndDate" "") ""
              [("Inicio", fmt_date_or_na start), ("Fin", fmt_date_or_na stop)]
      { numeroFactura := invoice_series ++ invoice_number,
        fecha := issue_date,
        tipoDocumento := invoice_type,
        moneda := invoice_currency,
        claseFactura := invoiceClassDesc invoice_class,
        periodoFactura := invoicing_period }

/-- `totals` (lines 290-302): the totals dict, present only when an
`InvoiceTotals` element exists. -/
def totales_of (invoice_element : Option Xml) : Dict :=
  match invoice_element with
  | none => []
  | some inv =>
    match findDesc inv "InvoiceTotals" with
    | none => []
    | some invoice_totals =>
        [("TotalGrossAmount", findtextChild invoice_totals "TotalGrossAmount" "0.00"),
         ("TotalGeneralDiscounts", findtextChild invoice_totals "TotalGeneralDiscounts" "0.00"),
         ("TotalGrossAmountBeforeTaxes",
            findtextChild invoice_totals "TotalGrossAmountBeforeTaxes" "N/A"),
         ("TotalTaxOutputs", findtextChild invoice_totals "TotalTaxOutputs" "N/A"),
         ("TotalTaxesWithheld", findtextChild invoice_totals "TotalTaxesWithheld" "N/A"),
         ("InvoiceTotal", findtextChild invoice_totals "InvoiceTotal" "N/A"),
         ("TotalOutstandingAmount",
            findtextChild invoice_totals "TotalOutstandingAmount" "N/A"),
         ("TotalExecutableAmount",
            findtextChild invoice_totals "TotalExecutableAmount" "N/A")]

/-- `taxes_withheld_details` (lines 304-317). -/
def taxes_withheld_of (invoice_element : Option Xml) : List WithheldTax :=
  match invoice_element with
  | none => []
  | some inv =>
    match findDesc inv "TaxesWithheld" with
    | none => []
    | some taxes_withheld =>
        (childrenNamed "Tax" taxes_withheld).map (fun tax =>
          { code := pyStrip (orElse (findtextChild tax "TaxTypeCode" "") ""),
            rate := pyStrip (orElse (findtextChild tax "TaxRate" "") ""),
            amount := pyStrip (orElse (findtextDesc2 tax "TaxAmount" "TotalAmount" "") ""),
            taxable_base :=
              pyStrip (orElse (findtextDesc2 tax "TaxableBase" "TotalAmount" "") "") })

/-- `taxes_output_details` (lines 319-332). -/
def taxes_output_of (invoice_element : Option Xml) : List OutputTax :=
  match invoice_element with
  | none => []
  | some inv =>
    match findDesc inv "TaxesOutputs" with
    | none => []
    | some taxes_outputs =>
        (childrenNamed "Tax" taxes_outputs).map (fun tax =>
          { type_code := pyStrip (orElse (findtextChild tax "TaxTypeCode" "01") "01"),
            rate := pyStrip (orElse (findtextChild tax "TaxRate" "21") "21"),
            base := pyStrip (orElse (findtextDesc2 tax "TaxableBase" "TotalAmount" "0") "0"),
            amount := pyStrip (orElse (findtextDesc2 tax "TaxAmount" "TotalAmount" "0") "0"),
            surcharge := pyStrip (orElse (findtextChild tax "EquivalenceSurcharge" "0") "0"),
            surcharge_amount := pyStrip
              (orElse (findtextDesc2 tax "EquivalenceSurchargeAmount" "TotalAmount" "0") "0") })

/-- Body of the `PaymentDetails` block for a found `Installment` element
(lines 338-364): due date reformatted, amount, means code mapped through the
19-entry table with the raw code as fallback, IBAN. -/
def extract_payment_details (payment : Xml) : Dict :=
  let due_date_raw := pyStrip (orElse (findtextChild payment "InstallmentDueDate" "") "")
  let due_date :=
    if due_date_raw = "" then ""
    else
      match pyStrptimeYMD due_date_raw with
      | some (y, m, d) => strftimeDMY y m d
      | none => due_date_raw
  let payment_means_code := pyStrip (orElse (findtextChild payment "PaymentMeans" "") "")
  let payment_means := lookupD payment_means_map payment_means_code payment_means_code
  let iban := pyStrip (orElse (findtextDesc2 payment "AccountToBeCredited" "IBAN" "") "")
  [("due_date", due_date),
   ("amount", pyStrip (orElse (findtextChild payment "InstallmentAmount" "") "")),
   ("means", payment_means),
   ("means_code", payment_means_code),
   ("iban", iban)]

/-- `payment_details` (lines 335-364): empty unless an installment block
exists. -/
def payment_details_of (invoice_element : Option Xml) : Dict :=
  match invoice_element with
  | none => []
  | some inv =>
    match findDesc2 inv "PaymentDetails" "Installment" with
    | none => []
    | some payment => extract_payment_details payment

/-- `items` (lines 366-415): invoice lines with observations, line period
and nested charges/discounts. -/
def items_of (invoice_element : Option Xml) : List InvoiceLine :=
  match invoice_element with
  | none => []
  | some inv =>
      (findAllDesc2 inv "Items" "InvoiceLine").map (fun line =>
        let periodo_linea :=
          match findChild line "LineItemPeriod" with
          | none => ""
          | some lp =>
              let lp_start := orElse (findtextChild lp "StartDate" "") ""
              let lp_end := orElse (findtextChild lp "EndDate" "") ""
              let fmtPart := fun (s : String) =>
                if s = "" then some ""
                else (pyStrptimeYMD s).map (fun (ymd : Nat × Nat × Nat) =>
                  strftimeDMY ymd.1 ymd.2.1 ymd.2.2)
              match fmtPart lp_start, fmtPart lp_end with
              | some s, some e => if s ≠ "" ∨ e ≠ "" then s ++ "–" ++ e else ""
              | _, _ => lp_start ++ "–" ++ lp_end
        { descripcion := findtextChild line "ItemDescription" "N/A",
          cantidad := findtextChild line "Quantity" "N/A",
          precioUnitario := findtextChild line "UnitPriceWithoutTax" "N/A",
          importe := findtextChild line "TotalCost" "N/A",
          observaciones := pyStrip (orElse (findtextChild line "AdditionalLineItemInformation" "") ""),
          periodo := periodo_linea,
          cargos := (findAllDesc2 line "Charges" "Charge").map (fun c =>
            { reason := pyStrip (orElse (findtextChild c "ChargeReason" "") "Cargo"),
              amount := pyStrip (orElse (findtextChild c "ChargeAmount" "0") "0") }),
          descuentos := (findAllDesc2 line "Discounts" "Discount").map (fun d =>
            { reason := pyStrip (orElse (findtextChild d "DiscountReason" "") "Dcto."),
              amount := pyStrip (orElse (findtextChild d "DiscountAmount" "0") "0") }) })

/-- `invoice_additional_info` (line 286). -/
def info_adicional_of (root : Xml) : String :=
  pyStrip (orElse (findtextDesc2 root "AdditionalData" "InvoiceAdditionalInformation" "") "")

/-- `legal_references` (line 287): stripped texts of the non-blank legal
reference elements. -/
def legal_references_of (root : Xml) : List String :=
  (findAllDesc2 root "LegalLiterals" "LegalReference").filterMap (fun ref =>
    match ref.text with
    | some t => if t ≠ "" ∧ pyStrip t ≠ "" then some (pyStrip t) else none
    | none => none)

/-- `_extract_invoice_data_from_xml` (lines 218-433): the full normalized
invoice record. `env` carries the ambient behaviour consumed by the embedded
signature extraction (certificate decoding, tolerant date parsing and the
current UTC instant); every other field is a pure function of the tree. -/
def extract_invoice_data_from_xml (env : PyEnv) (xml_root : Xml) : InvoiceData :=
  let invoice_element := findDesc2 xml_root "Invoices" "Invoice"
  let h := header_of invoice_element
  let totals := totales_of invoice_element
  { numeroFactura := h.numeroFactura,
    fecha := h.fecha,
    tipoDocumento := h.tipoDocumento,
    moneda := h.moneda,
    claseFactura := h.claseFactura,
    periodoFactura := h.periodoFactura,
    totalFactura := lookupD totals "InvoiceTotal" "N/A",
    totales := totals,
    emisor := emisor_of xml_root,
    receptor := receptor_of xml_root,
    tercero := tercero_of xml_root,
    conceptos := items_of invoice_element,
    firma := extract_signature_info_from_xml env xml_root,
    infoAdicional := info_adicional_of xml_root,
    referenciasLegales := legal_references_of xml_root,
    taxesWithheldDetails := taxes_withheld_of invoice_element,
    taxesOutputDetails := taxes_output_of invoice_element,
    paymentDetails := payment_details_of invoice_element }

/-! ## Conformity validation (`core/service.py`,
`generar_informe_conformidad_pdf_desde_payload`, lines 84-89, mirrored by the
request-model validator `InformeWSPayload._motivo_required_when_no_conforme`
in `api/main.py`, lines 139-146) -/

/-- The conformity validation gate: `resultado` is
`payload.get("resultado_conformidad", "conforme")` and `motivo` is the raw
optional `motivo_no_conformidad` value. `Except.error` carries the
`ValueError` message; `Except.ok` means the assembler proceeds to build the
report. -/
def conformidad_check (resultado : String) (motivo : Option String) : Except String Unit :=
  if resultado ≠ "conforme" ∧ resultado ≠ "no_conforme" then
    Except.error "resultado_conformidad debe ser \x27conforme\x27 o \x27no_conforme\x27"
  else if resultado = "no_conforme" ∧ pyStrip (motivo.getD "") = "" then
    Except.error "motivo_no_conformidad es obligatorio cuando resultado_conformidad = \x27no_conforme\x27"
  else Except.ok ()

/-! ## Area-code helpers (`core/service.py` lines 20-30,
`core/areas.py` lines 6-24) -/

/-- `_normalize_area_code` (`core/service.py`, lines 20-30): `""` for a
falsy input, two-digit zero-fill of the stripped value when it is fully
numeric, the stripped value otherwise. -/
def normalize_area_code (area_code : Option String) : String :=
  match area_code with
  | none => ""
  | some s =>
      if s = "" then ""
      else
        let ac := pyStrip s
        if pyIsDigit ac then pyZfill ac 2 else ac

/-- The loop body of `cargar_diccionario_areas` applied to one CSV row:
rows that are empty or have fewer than two fields are skipped; a row whose
stripped first field is non-empty is stored under that field zero-filled to
two characters. -/
def area_row_step (d : Dict) (row : List String) : Dict :=
  match row with
  | area_field :: nombre_field :: _ =>
      let area_raw := pyStrip area_field
      let nombre := pyStrip nombre_field
      if area_raw ≠ "" then dictSet d (pyZfill area_raw 2) nombre else d
  | _ => d

/-- `cargar_diccionario_areas` (`core/areas.py`, lines 6-24). The filesystem
and the CSV reader are modelled by `fs`: `fs path = none` means
`os.path.exists` is false, `fs path = some rows` gives the parsed
semicolon-delimited rows. (The `lru_cache` memoisation wraps a pure function
of the file, so it does not appear in the model.) -/
def cargar_diccionario_areas (fs : String → Option (List (List String)))
    (csv_path : String) : Dict :=
  if csv_path = "" then []
  else
    match fs csv_path with
    | none => []
    | some rows => rows.foldl area_row_step []

/-! ## Concrete sample inputs used by witnesses and counterexamples -/

/-- An inert ambient environment for documents whose signature section is
never reached. -/
def trivEnv : PyEnv :=
  ⟨fun _ => Except.error "", fun _ => Except.error "", fun _ => "", 0⟩

/-- A decoded sample certificate valid on the UTC window `[0, 100]`. -/
def sampleCert : Cert :=
  ⟨some "ALICE EXAMPLE", some "12345678Z", some "FNMT-RCM", some "SHA256", 0, 100⟩

/-- Certificate decoding that always succeeds with `sampleCert`. -/
def sampleDecodeCert : String → Except String Cert :=
  fun _ => Except.ok sampleCert

/-- Tolerant date parsing that always fails (an unparsable signing time). -/
def sampleParseDate : String → Except String Int :=
  fun _ => Except.error "Unknown string format: mañana"

/-- A fixed date renderer for the sample window. -/
def sampleFormatYMD : Int → String :=
  fun t => if t = 0 then "2020-01-01" else "2020-12-31"

/-- The sample ambient environment at a chosen current instant. -/
def envAt (now : Int) : PyEnv :=
  ⟨sampleDecodeCert, sampleParseDate, sampleFormatYMD, now⟩

/-- A document with an empty root element. -/
def docEmpty : Xml := .node "fe:Facturae" none []

/-- A signed document whose certificate text is present but whose signing
time is free text no date parser accepts. -/
def docCert : Xml :=
  .node "fe:Facturae" none
    [.node "ds:Signature" none
      [.node "ds:X509Certificate" (some "TUlJQ2VydA==") [],
       .node "xades:SigningTime" (some "mañana") []]]

/-- A root document containing an installment whose payment-means code is
not in the lookup table. -/
def docPayRoot : Xml :=
  .node "fe:Facturae" none
    [.node "Invoices" none
      [.node "Invoice" none
        [.node "PaymentDetails" none
          [.node "Installment" none [.node "PaymentMeans" (some "99") []]]]]]

/-- The installment element embedded in `docPayRoot`. -/
def docPayInstl : Xml :=
  .node "Installment" none [.node "PaymentMeans" (some "99") []]

/-- A sample filesystem with one areas CSV. -/
def fsSample : String → Option (List (List String)) :=
  fun p => if p = "areas.csv" then some [["1", " Area Uno "], [], ["007", "Siete"]] else none

/-- The six field keys of a party record. -/
def partyFieldKeys : List String :=
  ["Nombre", "NIF", "Dirección", "Poblacion", "Cod.Postal", "Provincia"]

/-- A document whose only party is an empty `ThirdParty` element. -/
def docThird : Xml :=
  .node "fe:Facturae" none [.node "Parties" none [.node "ThirdParty" none []]]

/-- A document whose only party is an empty `BuyerParty` element. -/
def docBuyer : Xml :=
  .node "fe:Facturae" none [.node "Parties" none [.node "BuyerParty" none []]]

/-- The extracted record with its signature dict blanked: everything the
extractor computes outside the signature section. -/
def withoutFirma (d : InvoiceData) : InvoiceData :=
  { d with firma := [] }

/-! ## Theorems -/

/-! ### Supporting lemmas for the unwrapper -/

theorem listStartsWith_head {p : Nat} {ps l : List Nat}
    (h : listStartsWith (p :: ps) l = true) : ∃ t, l = p :: t := by
  cases l with
  | nil => simp [listStartsWith] at h
  | cons b bs =>
      simp only [listStartsWith, Bool.and_eq_true, beq_iff_eq] at h
      exact ⟨bs, by rw [h.1]⟩

theorem drop_eq_cons_get {α : Type} [Inhabited α] :
    ∀ (l : List α) (i : Nat) (c : α) (t : List α),
      l.drop i = c :: t → l.get? i = some c := by
  intro l
  induction l with
  | nil => intro i c t h; cases i <;> simp [List.drop] at h
  | cons a l ih =>
      intro i c t h
      cases i with
      | zero => simp [List.drop] at h; simp [h.1]
      | succ n =>
          simp only [List.drop] at h
          simpa using ih n c t h

theorem listFind_startsWith {pat bs : List Nat} {i : Nat}
    (h : listFind pat bs = some i) : listStartsWith pat (bs.drop i) = true := by
  induction bs generalizing i with
  | nil =>
      simp only [listFind] at h
      by_cases hs : listStartsWith pat [] = true
      · simp [hs] at h; subst h; simpa using hs
      · simp [hs] at h
  | cons b bs ih =>
      simp only [listFind] at h
      by_cases hs : listStartsWith pat (b :: bs) = true
      · simp [hs] at h; subst h; simpa using hs
      · simp only [hs, if_neg, Bool.false_eq_true, if_false, Option.map_eq_some'] at h
        obtain ⟨j, hj, hji⟩ := h
        subst hji
        simpa using ih hj

theorem listRFind_get {v : Nat} : ∀ {bs : List Nat} {j : Nat},
    listRFind v bs = some j → bs.get? j = some v := by
  intro bs
  induction bs with
  | nil => intro j h; simp [listRFind] at h
  | cons b bs ih =>
      intro j h
      simp only [listRFind] at h
      cases hr : listRFind v bs with
      | some j' =>
          rw [hr] at h
          simp only [Option.some.injEq] at h
          subst h
          simpa using ih hr
      | none =>
          rw [hr] at h
          by_cases hb : (b == v) = true
          · simp [hb] at h; subst h; simp [beq_iff_eq] at hb; simp [hb]
          · simp [hb] at h

/-- C1: the Container Unwrapper returns the slice from the first occurrence
of `b"<?xml"` through the last occurrence of `b">"` (inclusive) whenever the
last `>` lies strictly after the marker; when the marker is absent, or the
last `>` lies at or before the marker, the input is returned unchanged. -/
theorem C1_container_unwrapper (bs : List Nat) :
    (listFind xmlStartMarker bs = none → extract_xml_from_xsig_bytes bs = bs) ∧
    (∀ i j : Nat, listFind xmlStartMarker bs = some i → listRFind 62 bs = some j →
      (j ≤ i → extract_xml_from_xsig_bytes bs = bs) ∧
      (i < j → extract_xml_from_xsig_bytes bs = (bs.take (j + 1)).drop i)) := by
  constructor
  · intro h
    simp [extract_xml_from_xsig_bytes, pyFind, h]
  · intro i j hfind hrfind
    have hi : bs.get? i = some 60 := by
      have hs := listFind_startsWith hfind
      obtain ⟨t, ht⟩ := @listStartsWith_head 60 [63, 120, 109, 108] (bs.drop i) hs
      exact drop_eq_cons_get bs i 60 t ht
    have hj : bs.get? j = some 62 := listRFind_get hrfind
    have hne : i ≠ j := by
      intro hij
      rw [hij, hj] at hi
      simp at hi
    constructor
    · intro hle
      have hlt : j < i := lt_of_le_of_ne hle (fun h => hne h.symm)
      simp only [extract_xml_from_xsig_bytes, pyFind, pyRFind, hfind, hrfind]
      rw [if_neg]
      intro ⟨_, hgt⟩
      omega
    · intro hlt
      simp only [extract_xml_from_xsig_bytes, pyFind, pyRFind, hfind, hrfind]
      rw [if_pos ⟨by omega, by omega⟩]
      norm_num

/-- Witness for C1 on a concrete container: two junk bytes, the marker, a
document body ending in `>`, then trailing signature bytes containing a
stray `>`; the slice runs from the marker to the last `>`. -/
theorem C1_container_unwrapper_witness :
    extract_xml_from_xsig_bytes
        [9, 9, 60, 63, 120, 109, 108, 32, 62, 7, 62, 5] =
      [60, 63, 120, 109, 108, 32, 62, 7, 62] :=
  ((C1_container_unwrapper _).2 2 10 (by decide) (by decide)).2 (by decide)

/-! ## C3 — certificate current status -/

/-- C3: for a validity window `[validoDesde, validoHasta]` and an evaluation
instant `now` (all UTC), the computed current status is currently-valid
inside the window, not-yet-valid before it and expired after it; and this is
exactly the `estado_certificado` entry the signature validator emits for any
successfully decoded certificate. -/
theorem C3_certificate_current_status (validoDesde validoHasta now : Int)
    (hwin : validoDesde ≤ validoHasta) :
    (validoDesde ≤ now → now ≤ validoHasta →
      certCurrentStatus validoDesde validoHasta now = "Certificado actualmente válido") ∧
    (now < validoDesde →
      certCurrentStatus validoDesde validoHasta now =
        "Certificado aún no válido (vigencia futura)") ∧
    (validoHasta < now →
      certCurrentStatus validoDesde validoHasta now = "Certificado caducado") ∧
    (∀ (env : PyEnv) (root : Xml) (cert : Cert),
      findtextDesc root "ds:X509Certificate" "" ≠ "" →
      env.decodeCert (findtextDesc root "ds:X509Certificate" "") = Except.ok cert →
      dictGet? (extract_signature_info_from_xml env root) "estado_certificado" =
        some (certCurrentStatus cert.validoDesde cert.validoHasta env.now)) := by
  refine ⟨?_, ?_, ?_, ?_⟩
  · intro h1 h2
    simp only [certCurrentStatus]
    rw [if_neg (by omega), if_neg (by omega)]
  · intro h1
    simp only [certCurrentStatus]
    rw [if_pos h1]
  · intro h1
    simp only [certCurrentStatus]
    rw [if_neg (by omega), if_pos (by omega)]
  · intro env root cert hne hdec
    simp only [extract_signature_info_from_xml]
    rw [if_neg hne, hdec]
    simp [dictGet?]

/-- Witness for C3 at the sample certificate window `[0, 100]`, at instants
inside, before and after it, and on the sample signed document. -/
theorem C3_certificate_current_status_witness :
    certCurrentStatus 0 100 50 = "Certificado actualmente válido" ∧
    certCurrentStatus 0 100 (-5) = "Certificado aún no válido (vigencia futura)" ∧
    certCurrentStatus 0 100 200 = "Certificado caducado" ∧
    dictGet? (extract_signature_info_from_xml (envAt 50) docCert) "estado_certificado" =
      some (certCurrentStatus 0 100 50) :=
  ⟨(C3_certificate_current_status 0 100 50 (by decide)).1 (by decide) (by decide),
   (C3_certificate_current_status 0 100 (-5) (by decide)).2.1 (by decide),
   (C3_certificate_current_status 0 100 200 (by decide)).2.2.1 (by decide),
   (C3_certificate_current_status 0 100 50 (by decide)).2.2.2
     (envAt 50) docCert sampleCert (by decide) rfl⟩

/-! ## C4 — signature validator error handling -/

/-- C4: when the certificate text decodes but the signing time is rejected
by the tolerant date parser, the validator still returns the full
found-signature dict, with the undetermined signing-time status carrying the
parse-error detail and the current status computed normally from the
window; and a certificate decoding failure is captured as the
extraction-error outcome carrying the exception detail. -/
theorem C4_signature_undetermined_signing_time (env : PyEnv) (root : Xml) :
    (∀ e : String, findtextDesc root "ds:X509Certificate" "" ≠ "" →
      env.decodeCert (findtextDesc root "ds:X509Certificate" "") = Except.error e →
      extract_signature_info_from_xml env root =
        [("estado", "Error al extraer firma: " ++ e)]) ∧
    (∀ (cert : Cert) (e : String),
      findtextDesc root "ds:X509Certificate" "" ≠ "" →
      env.decodeCert (findtextDesc root "ds:X509Certificate" "") = Except.ok cert →
      env.parseDate (findtextDesc root "xades:SigningTime" "No especificada") =
        Except.error e →
      extract_signature_info_from_xml env root =
        [("estado", "Firma encontrada"),
         ("firmante", cert.commonName.getD "N/A"),
         ("nif", cert.serialNumberAttr.getD "N/A"),
         ("algoritmo", cert.hashAlgUpper.getD "N/A"),
         ("fecha_firma", findtextDesc root "xades:SigningTime" "No especificada"),
         ("valido_desde", env.formatYMD cert.validoDesde),
         ("valido_hasta", env.formatYMD cert.validoHasta),
         ("estado_certificado", certCurrentStatus cert.validoDesde cert.validoHasta env.now),
         ("validez_en_firma", "No se pudo validar la fecha de firma: " ++ e),
         ("autoridad_certificadora", cert.issuerCN.getD "No disponible")]) := by
  constructor
  · intro e hne hdec
    simp only [extract_signature_info_from_xml]
    rw [if_neg hne, hdec]
  · intro cert e hne hdec hpd
    simp only [extract_signature_info_from_xml]
    rw [if_neg hne, hdec]
    simp only [hpd]

/-- Witness for C4: the sample signed document under the sample environment
(decoding succeeds, signing-time parsing fails) yields the found-signature
dict with the undetermined detail and the in-window current status. -/
theorem C4_signature_undetermined_signing_time_witness :
    extract_signature_info_from_xml (envAt 20) docCert =
      [("estado", "Firma encontrada"),
       ("firmante", "ALICE EXAMPLE"),
       ("nif", "12345678Z"),
       ("algoritmo", "SHA256"),
       ("fecha_firma", "mañana"),
       ("valido_desde", "2020-01-01"),
       ("valido_hasta", "2020-12-31"),
       ("estado_certificado", "Certificado actualmente válido"),
       ("validez_en_firma", "No se pudo validar la fecha de firma: Unknown string format: mañana"),
       ("autoridad_certificadora", "FNMT-RCM")] :=
  (C4_signature_undetermined_signing_time (envAt 20) docCert).2 sampleCert
    "Unknown string format: mañana" (by decide) rfl rfl

/-! ## C7 — conformity rejection reason -/

/-- C7: a non-conforming payload whose rejection reason is absent, empty or
whitespace-only is rejected with the validation error naming
`motivo_no_conformidad` as required; a conforming payload, or a
non-conforming one with a non-blank reason, passes the gate. -/
theorem C7_conformity_motivo_required (motivo : Option String) :
    (pyStrip (motivo.getD "") = "" →
      conformidad_check "no_conforme" motivo =
        Except.error
          "motivo_no_conformidad es obligatorio cuando resultado_conformidad = \x27no_conforme\x27") ∧
    (pyStrip (motivo.getD "") ≠ "" →
      conformidad_check "no_conforme" motivo = Except.ok ()) ∧
    conformidad_check "conforme" motivo = Except.ok () := by
  refine ⟨?_, ?_, ?_⟩
  · intro h
    simp [conformidad_check, h]
  · intro h
    simp [conformidad_check, h]
  · simp [conformidad_check]

/-- Witness for C7: a whitespace-only reason is rejected, a real reason and
an absent reason on a conforming payload are accepted. -/
theorem C7_conformity_motivo_required_witness :
    conformidad_check "no_conforme" (some "   ") =
      Except.error
        "motivo_no_conformidad es obligatorio cuando resultado_conformidad = \x27no_conforme\x27" ∧
    conformidad_check "no_conforme" (some " porque sí ") = Except.ok () ∧
    conformidad_check "conforme" none = Except.ok () :=
  ⟨(C7_conformity_motivo_required (some "   ")).1 (by decide),
   (C7_conformity_motivo_required (some " porque sí ")).2.1 (by decide),
   (C7_conformity_motivo_required none).2.2⟩

/-! ## C8 — area-code normalization -/

/-- C8: the area-code normalizer maps `None` and `""` to `""`, zero-fills
the stripped input to two digits exactly when it is fully numeric, and
returns the stripped input unchanged (no padding) otherwise; in particular
`"1"` becomes the lookup key `"01"`. -/
theorem C8_area_code_normalization :
    normalize_area_code none = "" ∧
    normalize_area_code (some "") = "" ∧
    (∀ s : String, s ≠ "" → pyIsDigit (pyStrip s) = true →
      normalize_area_code (some s) = pyZfill (pyStrip s) 2) ∧
    (∀ s : String, s ≠ "" → pyIsDigit (pyStrip s) = false →
      normalize_area_code (some s) = pyStrip s) ∧
    normalize_area_code (some "1") = "01" := by
  refine ⟨rfl, rfl, ?_, ?_, by decide⟩
  · intro s hne hdig
    simp [normalize_area_code, hne, hdig]
  · intro s hne hdig
    simp [normalize_area_code, hne, hdig]

/-- Witness for C8: a padded numeric input, an already-long numeric input
and a non-numeric input. -/
theorem C8_area_code_normalization_witness :
    normalize_area_code (some " 7 ") = "07" ∧
    normalize_area_code (some "007") = "007" ∧
    normalize_area_code (some "ab ") = "ab" :=
  ⟨(C8_area_code_normalization).2.2.1 " 7 " (by decide) (by decide),
   (C8_area_code_normalization).2.2.1 "007" (by decide) (by decide),
   (C8_area_code_normalization).2.2.2.1 "ab " (by decide) (by decide)⟩

/-! ## C9 — unknown payment-means codes keep the raw code -/

/-- C9: a payment-means code outside the fixed 19-entry two-digit table is
carried through as the `means` label itself (no `"N/A"` fallback), unlike
the invoice-class mapping, where an unknown code yields `"N/A"`; and the
extractor's payment-terms record is exactly this installment dict. -/
theorem C9_payment_means_raw_code (p : Xml) :
    (dictGet? payment_means_map
        (pyStrip (orElse (findtextChild p "PaymentMeans" "") "")) = none →
      dictGet? (extract_payment_details p) "means" =
        some (pyStrip (orElse (findtextChild p "PaymentMeans" "") ""))) ∧
    payment_means_map.length = 19 ∧
    payment_means_map.all (fun kv => kv.1.length == 2) = true ∧
    (∀ c : String, dictGet? invoice_class_map c = none → invoiceClassDesc c = "N/A") ∧
    (∀ (env : PyEnv) (root inv instl : Xml),
      findDesc2 root "Invoices" "Invoice" = some inv →
      findDesc2 inv "PaymentDetails" "Installment" = some instl →
      (extract_invoice_data_from_xml env root).paymentDetails =
        extract_payment_details instl) := by
  refine ⟨?_, by decide, by decide, ?_, ?_⟩
  · intro h
    have hred : dictGet? (extract_payment_details p) "means" =
        some (lookupD payment_means_map
          (pyStrip (orElse (findtextChild p "PaymentMeans" "") ""))
          (pyStrip (orElse (findtextChild p "PaymentMeans" "") ""))) := rfl
    rw [hred]
    simp only [lookupD, h, Option.getD_none]
  · intro c h
    simp [invoiceClassDesc, lookupD, h]
  · intro env root inv instl h1 h2
    show payment_details_of (findDesc2 root "Invoices" "Invoice") = _
    rw [h1]
    simp [payment_details_of, h2]

/-- Witness for C9: the code `"99"` is not in the table, so the `means`
label of the extracted installment dict is `"99"` itself, both on the bare
installment element and through the full extractor. -/
theorem C9_payment_means_raw_code_witness :
    dictGet? (extract_payment_details docPayInstl) "means" = some "99" ∧
    (extract_invoice_data_from_xml trivEnv docPayRoot).paymentDetails =
      extract_payment_details docPayInstl ∧
    invoiceClassDesc "ZZ" = "N/A" :=
  ⟨(C9_payment_means_raw_code docPayInstl).1 (by decide),
   (C9_payment_means_raw_code docPayInstl).2.2.2.2 trivEnv docPayRoot
     (Xml.node "Invoice" none
       [Xml.node "PaymentDetails" none
         [Xml.node "Installment" none [Xml.node "PaymentMeans" (some "99") []]]])
     docPayInstl rfl rfl,
   (C9_payment_means_raw_code docPayInstl).2.2.2.1 "ZZ" (by decide)⟩

/-! ## C10 — area CSV loader -/

theorem dictSet_mem {d : Dict} {k0 v0 : String} {kv : String × String}
    (h : kv ∈ dictSet d k0 v0) : kv ∈ d ∨ kv = (k0, v0) := by
  induction d with
  | nil =>
      simp only [dictSet, List.mem_singleton] at h
      right; exact h
  | cons a rest ih =>
      obtain ⟨k', v'⟩ := a
      simp only [dictSet] at h
      by_cases hk : k' = k0
      · rw [if_pos hk] at h
        rcases List.mem_cons.mp h with h1 | h2
        · right; exact h1
        · left; exact List.mem_cons_of_mem _ h2
      · rw [if_neg hk] at h
        rcases List.mem_cons.mp h with h1 | h2
        · left; rw [h1]; exact List.mem_cons_self _ _
        · rcases ih h2 with h3 | h4
          · left; exact List.mem_cons_of_mem _ h3
          · right; exact h4

theorem pyZfill_two_length (s : String) (hne : s ≠ "") : 2 ≤ (pyZfill s 2).length := by
  obtain ⟨l⟩ := s
  cases l with
  | nil => exact absurd rfl hne
  | cons c cs =>
      by_cases h2 : (String.mk (c :: cs)).length ≥ 2
      · simp only [pyZfill]
        rw [if_pos h2]
        exact h2
      · have hl : (String.mk (c :: cs)).length = cs.length + 1 := by
          simp [String.length]
        have hpad : pyZfill (String.mk (c :: cs)) 2 =
            (if (c == '+' || c == '-') = true then
              String.mk (c :: (List.replicate (2 - (String.mk (c :: cs)).length) '0' ++ cs))
            else
              String.mk (List.replicate (2 - (String.mk (c :: cs)).length) '0' ++ (c :: cs))) := by
          simp only [pyZfill]
          rw [if_neg h2]
          rfl
        rw [hpad, hl]
        rw [hl] at h2
        by_cases hc : (c == '+' || c == '-') = true
        · rw [if_pos hc]
          simp [String.length]
          omega
        · rw [if_neg hc]
          simp [String.length]
          omega

theorem area_row_step_length {d : Dict} {row : List String}
    (hd : ∀ kv : String × String, kv ∈ d → 2 ≤ kv.1.length) :
    ∀ kv : String × String, kv ∈ area_row_step d row → 2 ≤ kv.1.length := by
  intro kv hkv
  match row with
  | [] => exact hd kv hkv
  | [a] => exact hd kv hkv
  | a :: b :: rest =>
      simp only [area_row_step] at hkv
      by_cases ha : pyStrip a ≠ ""
      · rw [if_pos ha] at hkv
        rcases dictSet_mem hkv with h1 | h2
        · exact hd kv h1
        · rw [h2]
          exact pyZfill_two_length _ ha
      · rw [if_neg ha] at hkv
        exact hd kv hkv

theorem areas_fold_length (rows : List (List String)) (acc : Dict)
    (hacc : ∀ kv : String × String, kv ∈ acc → 2 ≤ kv.1.length) :
    ∀ kv : String × String, kv ∈ rows.foldl area_row_step acc → 2 ≤ kv.1.length := by
  induction rows generalizing acc with
  | nil => simpa using hacc
  | cons row rest ih =>
      intro kv hkv
      rw [List.foldl_cons] at hkv
      exact ih (area_row_step acc row) (area_row_step_length hacc) kv hkv

/-- C10: the loader returns the empty dict for an empty path and for a path
the filesystem does not know, and never raises (it is total); every key it
does store is the row's first field trimmed and zero-filled to at least two
characters, so all stored keys have length at least 2. -/
theorem C10_area_csv_loader (fs : String → Option (List (List String)))
    (csv_path : String) :
    (csv_path = "" → cargar_diccionario_areas fs csv_path = []) ∧
    (fs csv_path = none → cargar_diccionario_areas fs csv_path = []) ∧
    (∀ kv : String × String, kv ∈ cargar_diccionario_areas fs csv_path →
      2 ≤ kv.1.length) := by
  refine ⟨?_, ?_, ?_⟩
  · intro h
    simp [cargar_diccionario_areas, h]
  · intro h
    simp only [cargar_diccionario_areas, h]
    split <;> rfl
  · intro kv hkv
    simp only [cargar_diccionario_areas] at hkv
    by_cases hp : csv_path = ""
    · rw [if_pos hp] at hkv; simp at hkv
    · rw [if_neg hp] at hkv
      cases hfs : fs csv_path with
      | none => rw [hfs] at hkv; simp at hkv
      | some rows =>
          rw [hfs] at hkv
          exact areas_fold_length rows [] (by simp) kv hkv

/-- Witness for C10 on the sample filesystem: empty path and unknown path
yield the empty dict, and a stored key (`"1"` zero-filled to `"01"`) has
length at least 2. -/
theorem C10_area_csv_loader_witness :
    cargar_diccionario_areas fsSample "" = [] ∧
    cargar_diccionario_areas fsSample "missing.csv" = [] ∧
    2 ≤ (("01", "Area Uno") : String × String).1.length :=
  ⟨(C10_area_csv_loader fsSample "").1 rfl,
   (C10_area_csv_loader fsSample "missing.csv").2.1 rfl,
   (C10_area_csv_loader fsSample "areas.csv").2.2 ("01", "Area Uno") (by decide)⟩

/-! ## C2 — sentinel-on-missing party fields -/

theorem address_components_shape (e : Option Xml) :
    ∃ a b c d, address_components e =
      [("Dirección", a), ("Poblacion", b), ("Cod.Postal", c), ("Provincia", d)] := by
  cases e with
  | none => exact ⟨_, _, _, _, rfl⟩
  | some er =>
      simp only [address_components]
      cases h1 : findChild er "AddressInSpain" with
      | some addr_es => exact ⟨_, _, _, _, rfl⟩
      | none =>
          cases h2 : findChild er "OverseasAddress" with
          | some addr_ov => exact ⟨_, _, _, _, rfl⟩
          | none => exact ⟨_, _, _, _, rfl⟩

theorem extract_party_full_empty (parent : Xml) (tag : String)
    (h : findDesc parent tag = none) : extract_party_full parent tag = [] := by
  simp only [extract_party_full, h]

theorem party_name_addr_shape (party : Xml) :
    ∃ n a b c d, party_name_addr party =
      (n, [("Dirección", a), ("Poblacion", b), ("Cod.Postal", c), ("Provincia", d)]) := by
  simp only [party_name_addr]
  split
  · rename_i legal hleg
    obtain ⟨a, b, c, d, hs⟩ := address_components_shape (some legal)
    exact ⟨_, a, b, c, d, by rw [hs]⟩
  · rename_i individual hleg hind
    obtain ⟨a, b, c, d, hs⟩ := address_components_shape (some individual)
    exact ⟨_, a, b, c, d, by rw [hs]⟩
  · exact ⟨_, _, _, _, _, rfl⟩

theorem extract_party_full_shape (parent : Xml) (tag : String) (party : Xml)
    (h : findDesc parent tag = some party) :
    ∃ n t dir pob cp pr, extract_party_full parent tag =
      [("Nombre", n), ("NIF", t), ("Dirección", dir),
       ("Poblacion", pob), ("Cod.Postal", cp), ("Provincia", pr)] := by
  obtain ⟨n, a, b, c, d, hna⟩ := party_name_addr_shape party
  refine ⟨n,
    orElse (findtextDesc2 party "TaxIdentification" "TaxIdentificationNumber" "N/A") "N/A",
    a, b, c, d, ?_⟩
  simp only [extract_party_full, h, hna]
  rfl

/-- C2 (amended): the seller record always carries all six party fields
(all `"N/A"` when the seller element is absent), and any present party
element — seller, buyer or third party — yields a record with all six
fields; but on an absent `BuyerParty` the buyer record carries only
name/tax-id/address plus the four administrative-centre fields, and on an
absent `ThirdParty` the third-party record is the empty dict. -/
theorem C2_party_sentinel_fields (env : PyEnv) (root : Xml) :
    (∀ k ∈ partyFieldKeys,
      hasKey (extract_invoice_data_from_xml env root).emisor k = true) ∧
    (findDesc root "SellerParty" = none →
      (extract_invoice_data_from_xml env root).emisor =
        [("Nombre", "N/A"), ("NIF", "N/A"), ("Dirección", "N/A"),
         ("Poblacion", "N/A"), ("Cod.Postal", "N/A"), ("Provincia", "N/A")]) ∧
    (∀ party : Xml, findDesc root "ThirdParty" = some party →
      ∀ k ∈ partyFieldKeys,
        hasKey (extract_invoice_data_from_xml env root).tercero k = true) ∧
    (findDesc root "ThirdParty" = none →
      (extract_invoice_data_from_xml env root).tercero = []) ∧
    (∀ party : Xml, findDesc root "BuyerParty" = some party →
      ∀ k ∈ partyFieldKeys,
        hasKey (extract_invoice_data_from_xml env root).receptor k = true) ∧
    (findDesc root "BuyerParty" = none →
      (extract_invoice_data_from_xml env root).receptor =
        [("Nombre", "N/A"), ("NIF", "N/A"), ("Dirección", "N/A"), ("OfiCont", "N/A"),
         ("OrgGest", "N/A"), ("Und.Tram", "N/A"), ("UndTram", "N/A")]) := by
  refine ⟨?_, ?_, ?_, ?_, ?_, ?_⟩
  · intro k hk
    show hasKey (emisor_of root) k = true
    cases hfd : findDesc root "SellerParty" with
    | none =>
        simp only [emisor_of, extract_party_full_empty root "SellerParty" hfd]
        fin_cases hk <;> rfl
    | some party =>
        obtain ⟨n, t, dir, pob, cp, pr, hshape⟩ :=
          extract_party_full_shape root "SellerParty" party hfd
        simp only [emisor_of, hshape]
        rw [if_neg (by simp)]
        fin_cases hk <;> rfl
  · intro hfd
    show emisor_of root = _
    simp [emisor_of, extract_party_full_empty root "SellerParty" hfd]
  · intro party hfd k hk
    show hasKey (tercero_of root) k = true
    obtain ⟨n, t, dir, pob, cp, pr, hshape⟩ :=
      extract_party_full_shape root "ThirdParty" party hfd
    simp only [tercero_of, hshape]
    fin_cases hk <;> rfl
  · intro hfd
    show tercero_of root = _
    simp only [tercero_of, extract_party_full_empty root "ThirdParty" hfd]
  · intro party hfd k hk
    show hasKey (receptor_of root) k = true
    obtain ⟨n, t, dir, pob, cp, pr, hshape⟩ :=
      extract_party_full_shape root "BuyerParty" party hfd
    simp only [receptor_of, hshape]
    rw [if_neg (by simp)]
    fin_cases hk <;> rfl
  · intro hfd
    show receptor_of root = _
    simp [receptor_of, destinos_of, extract_party_full_empty root "BuyerParty" hfd, hfd,
      dictSet, lookupD, dictGet?, List.getD]

/-- Counterexample to C2 as stated: on a document with no `ThirdParty`
element the third-party record is the empty dict (its name field is
omitted, not `"N/A"`), and on a document with no `BuyerParty` the buyer
record omits the town field. -/
theorem C2_party_sentinel_counterexample :
    dictGet? (extract_invoice_data_from_xml trivEnv docEmpty).tercero "Nombre" = none ∧
    dictGet? (extract_invoice_data_from_xml trivEnv docEmpty).receptor "Poblacion" = none :=
  ⟨rfl, rfl⟩

/-- Witness for C2 (amended) at concrete documents: a present third party
and a present buyer have all six fields, an absent third party gives the
empty record, and an absent buyer gives the seven-entry record. -/
theorem C2_party_sentinel_fields_witness :
    hasKey (extract_invoice_data_from_xml trivEnv docThird).tercero "Provincia" = true ∧
    hasKey (extract_invoice_data_from_xml trivEnv docBuyer).receptor "Poblacion" = true ∧
    (extract_invoice_data_from_xml trivEnv docEmpty).tercero = [] ∧
    (extract_invoice_data_from_xml trivEnv docEmpty).receptor =
      [("Nombre", "N/A"), ("NIF", "N/A"), ("Dirección", "N/A"), ("OfiCont", "N/A"),
       ("OrgGest", "N/A"), ("Und.Tram", "N/A"), ("UndTram", "N/A")] :=
  ⟨(C2_party_sentinel_fields trivEnv docThird).2.2.1
      (Xml.node "ThirdParty" none []) rfl "Provincia" (by simp [partyFieldKeys]),
   (C2_party_sentinel_fields trivEnv docBuyer).2.2.2.2.1
      (Xml.node "BuyerParty" none []) rfl "Poblacion" (by simp [partyFieldKeys]),
   (C2_party_sentinel_fields trivEnv docEmpty).2.2.2.1 rfl,
   (C2_party_sentinel_fields trivEnv docEmpty).2.2.2.2.2 rfl⟩

/-! ## C5 — extractor determinism -/

/-- C5 (amended): extraction is a deterministic function of the parsed
document and the ambient environment; two runs over the same document whose
environments share the library behaviour and differ only in the current
instant agree on every field outside the signature dict, and two runs with
the same instant are bit-identical. -/
theorem C5_extractor_determinism
    (dec : String → Except String Cert) (pd : String → Except String Int)
    (fy : Int → String) (now1 now2 : Int) (root : Xml) :
    withoutFirma (extract_invoice_data_from_xml ⟨dec, pd, fy, now1⟩ root) =
      withoutFirma (extract_invoice_data_from_xml ⟨dec, pd, fy, now2⟩ root) ∧
    (now1 = now2 →
      extract_invoice_data_from_xml ⟨dec, pd, fy, now1⟩ root =
        extract_invoice_data_from_xml ⟨dec, pd, fy, now2⟩ root) := by
  constructor
  · rfl
  · intro h
    rw [h]

/-- Counterexample to C5 as stated: the signature section reads the ambient
clock, so the same signed document extracted at two instants (one inside,
one after the certificate window) yields different records. -/
theorem C5_extractor_determinism_counterexample :
    extract_invoice_data_from_xml (envAt 50) docCert ≠
      extract_invoice_data_from_xml (envAt 200) docCert := by
  intro h
  have h2 := congrArg (fun r => dictGet? (InvoiceData.firma r) "estado_certificado") h
  simp only [] at h2
  exact absurd h2 (by decide)

/-- Witness for C5: two runs at the same instant over the sample documents
are bit-identical. -/
theorem C5_extractor_determinism_witness :
    extract_invoice_data_from_xml ⟨sampleDecodeCert, sampleParseDate, sampleFormatYMD, 7⟩ docCert =
      extract_invoice_data_from_xml ⟨sampleDecodeCert, sampleParseDate, sampleFormatYMD, 7⟩ docCert :=
  (C5_extractor_determinism sampleDecodeCert sampleParseDate sampleFormatYMD 7 7 docCert).2 rfl

end SicalWS
